import Mathlib

/-!
Verification of the router-manager Django application.

This file gives a shallow embedding, in Lean, of the parts of the
router-manager code base that the specification talks about:

* `monitoring/utils.py` — `SystemMonitor.evaluate_alert_condition`,
  `SystemMonitor.check_alerts`, `SystemMonitor.collect_connection_metrics`;
* `monitoring/models.py` — `AlertInstance.send_notification`,
  `MonitoringSettings.save` / `get_settings`;
* `monitoring/tasks.py` — the four Celery tasks;
* `monitoring/management/commands/collect_metrics.py` — `Command.handle`;
* `network/nftables_config.py` — `NFTablesConfigManager`;
* `nftables_mgr/models.py` — the post-save / post-delete signal handlers;
* `network/utils.py` and `dashboard/utils.py` — the two `run_command`
  helpers.

Machine integers are modelled as `Int` / `Nat`, Python floats that are only
ever compared (never arithmetically combined) as `Rat`, Python strings as
Lean `String`, database tables as lists of rows, and the outside world
(subprocess results, psutil data, exceptions raised by the database layer)
as explicit oracle parameters.
-/

set_option maxRecDepth 100000

namespace RouterManager

/-! ## Python `str.replace`

Python's `str.replace(old, new)` replaces every non-overlapping occurrence
of `old`, scanning left to right.  We model it on `List Char`.
-/

/-- Left-to-right, non-overlapping substring replacement, as performed by
Python's `str.replace` for a non-empty pattern.  (For an empty pattern the
function leaves the string unchanged; the code under verification only ever
uses fixed non-empty patterns.) -/
def pyReplace (N r : List Char) : List Char → List Char
  | [] => []
  | c :: s =>
    if N ≠ [] ∧ N.isPrefixOf (c :: s) then
      r ++ pyReplace N r ((c :: s).drop N.length)
    else
      c :: pyReplace N r s
  termination_by s => s.length
  decreasing_by
    · simp only [List.length_drop, List.length_cons]
      have hN : N.length ≠ 0 := by
        intro h
        exact (by assumption : N ≠ [] ∧ _).1 (List.length_eq_zero.mp h)
      omega
    · simp

/-- `String` version of `pyReplace`: `s.replace(pat, rep)` in Python. -/
def pyReplaceS (s pat rep : String) : String :=
  ⟨pyReplace pat.data rep.data s.data⟩

/-- `true` iff no occurrence of `N` starts inside `A`, not even an
occurrence that would continue past the end of `A` into whatever is
appended after it. -/
def noStart (N : List Char) : List Char → Bool
  | [] => true
  | c :: s => !(N.isPrefixOf (c :: s)) && !((c :: s).isPrefixOf N) && noStart N s

/-- `true` iff `N` occurs as a substring of `s`. -/
def containsSub (N : List Char) : List Char → Bool
  | [] => decide (N = [])
  | c :: s => N.isPrefixOf (c :: s) || containsSub N s

theorem pyReplace_nil (N r : List Char) : pyReplace N r [] = [] := by
  simp [pyReplace]

theorem pyReplace_cons_miss (N r : List Char) (c : Char) (s : List Char)
    (h : ¬ N.isPrefixOf (c :: s)) :
    pyReplace N r (c :: s) = c :: pyReplace N r s := by
  rw [pyReplace]
  simp [h]

theorem pyReplace_hit (N r s : List Char) (hN : N ≠ []) (hp : N.isPrefixOf s) :
    pyReplace N r s = r ++ pyReplace N r (s.drop N.length) := by
  cases s with
  | nil =>
    cases N with
    | nil => exact absurd rfl hN
    | cons a as => simp [List.isPrefixOf] at hp
  | cons c s' =>
    rw [pyReplace]
    simp [hN, hp]

theorem pyReplace_eq_self (N r : List Char) :
    ∀ s : List Char, containsSub N s = false → pyReplace N r s = s := by
  intro s
  induction s with
  | nil => intro _; exact pyReplace_nil N r
  | cons c s' ih =>
    intro h
    rw [containsSub] at h
    simp only [Bool.or_eq_false_iff] at h
    rw [pyReplace_cons_miss N r c s' (by simp [h.1]), ih h.2]

theorem isPrefixOf_iff (l₁ l₂ : List Char) : l₁.isPrefixOf l₂ = true ↔ l₁ <+: l₂ :=
  List.isPrefixOf_iff_prefix

theorem shorterOfCommon {l₁ l₂ l₃ : List Char} (h₁ : l₁ <+: l₃) (h₂ : l₂ <+: l₃)
    (h : l₁.length ≤ l₂.length) : l₁ <+: l₂ :=
  List.prefix_of_prefix_length_le h₁ h₂ h

theorem not_isPrefixOf_append (N A B : List Char)
    (h1 : ¬ N.isPrefixOf A) (h2 : ¬ A.isPrefixOf N) :
    ¬ N.isPrefixOf (A ++ B) := by
  intro h
  rw [isPrefixOf_iff] at h h1 h2
  rcases le_or_lt N.length A.length with hle | hlt
  · exact h1 (shorterOfCommon h (List.prefix_append A B) hle)
  · exact h2 (shorterOfCommon (List.prefix_append A B) h hlt.le)

theorem pyReplace_append_left (N r : List Char) :
    ∀ (A B : List Char), noStart N A = true →
      pyReplace N r (A ++ B) = A ++ pyReplace N r B := by
  intro A
  induction A with
  | nil => intro B _; simp
  | cons c A' ih =>
    intro B h
    rw [noStart] at h
    simp only [Bool.and_eq_true, Bool.not_eq_true'] at h
    obtain ⟨⟨h1, h2⟩, h3⟩ := h
    have hmiss : ¬ N.isPrefixOf ((c :: A') ++ B) :=
      not_isPrefixOf_append N (c :: A') B (by simp [h1]) (by simp [h2])
    rw [List.cons_append, pyReplace_cons_miss N r c (A' ++ B)
      (by simpa using hmiss), ih B h3]
    rfl

theorem pyReplace_append_split (N r2 : List Char) (hN : N ≠ []) (c0 : Char)
    (hc0 : c0 ∉ N) :
    ∀ (r B : List Char),
      pyReplace N r2 (r ++ c0 :: B) = pyReplace N r2 r ++ pyReplace N r2 (c0 :: B) := by
  suffices H : ∀ (n : ℕ) (r B : List Char), r.length ≤ n →
      pyReplace N r2 (r ++ c0 :: B) = pyReplace N r2 r ++ pyReplace N r2 (c0 :: B) by
    intro r B
    exact H r.length r B le_rfl
  intro n
  induction n with
  | zero =>
    intro r B hr
    rw [List.length_eq_zero.mp (Nat.le_zero.mp hr)]
    simp [pyReplace_nil]
  | succ n ih =>
    intro r B hr
    cases r with
    | nil => simp [pyReplace_nil]
    | cons c r₁ =>
      by_cases hp : N.isPrefixOf ((c :: r₁) ++ c0 :: B)
      · -- a match starts at the head; it must lie entirely inside `c :: r₁`,
        -- since `c0 ∉ N` rules out a match that crosses into `c0 :: B`.
        have hpp : N <+: (c :: r₁) ++ c0 :: B := (isPrefixOf_iff _ _).mp hp
        have hlen : N.length ≤ (c :: r₁).length := by
          by_contra hgt
          push_neg at hgt
          have hrp : (c :: r₁) <+: N :=
            shorterOfCommon (List.prefix_append _ _) hpp (Nat.le_of_lt hgt)
          have hNeq : N = ((c :: r₁) ++ c0 :: B).take N.length :=
            List.prefix_iff_eq_take.mp hpp
          have hmem : c0 ∈ N := by
            rw [hNeq, List.take_append_eq_append_take]
            refine List.mem_append_right _ ?_
            have : 1 ≤ N.length - (c :: r₁).length := by omega
            cases h' : N.length - (c :: r₁).length with
            | zero => omega
            | succ k => simp
          exact hc0 hmem
        have hNr : N <+: (c :: r₁) :=
          shorterOfCommon hpp (List.prefix_append _ _) hlen
        rw [pyReplace_hit N r2 _ hN hp,
            pyReplace_hit N r2 (c :: r₁) hN ((isPrefixOf_iff _ _).mpr hNr)]
        rw [List.drop_append_eq_append_drop, Nat.sub_eq_zero_of_le hlen,
            List.drop_zero]
        rw [ih ((c :: r₁).drop N.length) B
          (by
            have h1 : 1 ≤ N.length := by
              cases N with
              | nil => exact absurd rfl hN
              | cons a as => simp
            simp only [List.length_drop, List.length_cons]
            simp only [List.length_cons] at hr
            omega)]
        simp [List.append_assoc]
      · have hp₁ : ¬ N.isPrefixOf (c :: r₁) := by
          intro h
          exact hp (by
            rw [isPrefixOf_iff] at h ⊢
            exact h.trans (List.prefix_append _ _))
        rw [List.cons_append, pyReplace_cons_miss N r2 c _ (by simpa using hp),
            pyReplace_cons_miss N r2 c r₁ hp₁]
        rw [ih r₁ B (by simp only [List.length_cons] at hr; omega)]
        rfl

/-! ## nftables configuration generation

Embedding of `network/nftables_config.py` (`NFTablesConfigManager`) and of
the two model classes it reads, `nftables_mgr/models.py::PortForward` and
`NFTableRule`.  Nullable Django fields become `Option`; Python truthiness
of a nullable string or positive-integer field is modelled explicitly.
-/

/-- Row of the `PortForward` table (`nftables_mgr/models.py`). -/
structure PortForward where
  name : String
  external_port : Nat
  internal_ip : String
  internal_port : Nat
  protocol : String
  enabled : Bool
deriving DecidableEq, Repr

/-- Row of the `NFTableRule` table (`nftables_mgr/models.py`). -/
structure NFTableRule where
  name : String
  description : String
  protocol : String
  source_ip : Option String
  source_port : Option Nat
  destination_ip : Option String
  destination_port : Option Nat
  action : String
  enabled : Bool
  priority : Nat
deriving DecidableEq, Repr

/-- Python truthiness of a nullable string field (`None` and `""` are falsy). -/
def strTruthy : Option String → Bool
  | none => false
  | some s => s ≠ ""

/-- Python truthiness of a nullable integer field (`None` and `0` are falsy). -/
def natTruthy : Option Nat → Bool
  | none => false
  | some n => n ≠ 0

/-- The fixed base template returned by `NFTablesConfigManager._get_base_config`. -/
def base_config : String :=
  "#!/usr/sbin/nft -f\n\nflush ruleset\n\ntable inet filter \x7b\n    chain input \x7b\n        type filter hook input priority filter; policy accept;\n        \n        # Allow loopback\n        iif lo accept\n        \n        # Allow established and related connections\n        ct state established,related accept\n        \n        # Allow SSH\n        tcp dport 22 accept\n        \n        # Allow HTTP/HTTPS\n        tcp dport \x7b 80, 443 \x7d accept\n        \n        # Allow router-manager web interface\n        tcp dport 8000 accept\n        \n        # Dynamic firewall rules will be inserted here\n        # FIREWALL_RULES_PLACEHOLDER\n        \n        # Default drop for other traffic\n        # drop\n    \x7d\n    \n    chain forward \x7b\n        type filter hook forward priority filter; policy accept;\n        \n        # Allow established and related connections\n        ct state established,related accept\n        \n        # Dynamic port forwarding rules will be inserted here\n        # FORWARD_RULES_PLACEHOLDER\n    \x7d\n    \n    chain output \x7b\n        type filter hook output priority filter; policy accept;\n    \x7d\n\x7d\n\ntable inet nat \x7b\n    chain prerouting \x7b\n        type nat hook prerouting priority dstnat; policy accept;\n        \n        # Dynamic DNAT rules for port forwarding will be inserted here\n        # DNAT_RULES_PLACEHOLDER\n    \x7d\n    \n    chain postrouting \x7b\n        type nat hook postrouting priority srcnat; policy accept;\n        \n        # Masquerade for internal networks\n        oifname \"eth0\" masquerade\n    \x7d\n\x7d\n"

/-- The indented placeholder text replaced for the forward chain. -/
def forwardPH : String := "        # FORWARD_RULES_PLACEHOLDER"

/-- The indented placeholder text replaced for the DNAT chain. -/
def dnatPH : String := "        # DNAT_RULES_PLACEHOLDER"

/-- The indented placeholder text replaced for the input-chain firewall rules. -/
def firewallPH : String := "        # FIREWALL_RULES_PLACEHOLDER"

/-- Everything of the base template strictly before `firewallPH`. -/
def tmplQ0 : String :=
  "#!/usr/sbin/nft -f\n\nflush ruleset\n\ntable inet filter \x7b\n    chain input \x7b\n        type filter hook input priority filter; policy accept;\n        \n        # Allow loopback\n        iif lo accept\n        \n        # Allow established and related connections\n        ct state established,related accept\n        \n        # Allow SSH\n        tcp dport 22 accept\n        \n        # Allow HTTP/HTTPS\n        tcp dport \x7b 80, 443 \x7d accept\n        \n        # Allow router-manager web interface\n        tcp dport 8000 accept\n        \n        # Dynamic firewall rules will be inserted here\n"

/-- The base template between `firewallPH` and `forwardPH`. -/
def tmplQ1 : String :=
  "\n        \n        # Default drop for other traffic\n        # drop\n    \x7d\n    \n    chain forward \x7b\n        type filter hook forward priority filter; policy accept;\n        \n        # Allow established and related connections\n        ct state established,related accept\n        \n        # Dynamic port forwarding rules will be inserted here\n"

/-- The base template between `forwardPH` and `dnatPH`. -/
def tmplQ2 : String :=
  "\n    \x7d\n    \n    chain output \x7b\n        type filter hook output priority filter; policy accept;\n    \x7d\n\x7d\n\ntable inet nat \x7b\n    chain prerouting \x7b\n        type nat hook prerouting priority dstnat; policy accept;\n        \n        # Dynamic DNAT rules for port forwarding will be inserted here\n"

/-- Everything of the base template strictly after `dnatPH`. -/
def tmplQ3 : String :=
  "\n    \x7d\n    \n    chain postrouting \x7b\n        type nat hook postrouting priority srcnat; policy accept;\n        \n        # Masquerade for internal networks\n        oifname \"eth0\" masquerade\n    \x7d\n\x7d\n"

/-- The base template up to but excluding `forwardPH`
(so `tmplQ0 ++ firewallPH ++ tmplQ1`, as a single literal). -/
def tmplA1 : String :=
  "#!/usr/sbin/nft -f\n\nflush ruleset\n\ntable inet filter \x7b\n    chain input \x7b\n        type filter hook input priority filter; policy accept;\n        \n        # Allow loopback\n        iif lo accept\n        \n        # Allow established and related connections\n        ct state established,related accept\n        \n        # Allow SSH\n        tcp dport 22 accept\n        \n        # Allow HTTP/HTTPS\n        tcp dport \x7b 80, 443 \x7d accept\n        \n        # Allow router-manager web interface\n        tcp dport 8000 accept\n        \n        # Dynamic firewall rules will be inserted here\n        # FIREWALL_RULES_PLACEHOLDER\n        \n        # Default drop for other traffic\n        # drop\n    \x7d\n    \n    chain forward \x7b\n        type filter hook forward priority filter; policy accept;\n        \n        # Allow established and related connections\n        ct state established,related accept\n        \n        # Dynamic port forwarding rules will be inserted here\n"

/-- The base template strictly after `forwardPH`
(so `tmplQ2 ++ dnatPH ++ tmplQ3`, as a single literal). -/
def tmplT1 : String :=
  "\n    \x7d\n    \n    chain output \x7b\n        type filter hook output priority filter; policy accept;\n    \x7d\n\x7d\n\ntable inet nat \x7b\n    chain prerouting \x7b\n        type nat hook prerouting priority dstnat; policy accept;\n        \n        # Dynamic DNAT rules for port forwarding will be inserted here\n        # DNAT_RULES_PLACEHOLDER\n    \x7d\n    \n    chain postrouting \x7b\n        type nat hook postrouting priority srcnat; policy accept;\n        \n        # Masquerade for internal networks\n        oifname \"eth0\" masquerade\n    \x7d\n\x7d\n"

/-- `tmplT1` without its leading newline. -/
def tmplT1t : String :=
  "    \x7d\n    \n    chain output \x7b\n        type filter hook output priority filter; policy accept;\n    \x7d\n\x7d\n\ntable inet nat \x7b\n    chain prerouting \x7b\n        type nat hook prerouting priority dstnat; policy accept;\n        \n        # Dynamic DNAT rules for port forwarding will be inserted here\n        # DNAT_RULES_PLACEHOLDER\n    \x7d\n    \n    chain postrouting \x7b\n        type nat hook postrouting priority srcnat; policy accept;\n        \n        # Masquerade for internal networks\n        oifname \"eth0\" masquerade\n    \x7d\n\x7d\n"

/-- `tmplQ2` without its leading newline. -/
def tmplQ2t : String :=
  "    \x7d\n    \n    chain output \x7b\n        type filter hook output priority filter; policy accept;\n    \x7d\n\x7d\n\ntable inet nat \x7b\n    chain prerouting \x7b\n        type nat hook prerouting priority dstnat; policy accept;\n        \n        # Dynamic DNAT rules for port forwarding will be inserted here\n"

/-- `tmplQ3` without its leading newline. -/
def tmplQ3t : String :=
  "    \x7d\n    \n    chain postrouting \x7b\n        type nat hook postrouting priority srcnat; policy accept;\n        \n        # Masquerade for internal networks\n        oifname \"eth0\" masquerade\n    \x7d\n\x7d\n"

/-- Database state read by `NFTablesConfigManager.generate_config`: the
`PortForward` and `NFTableRule` tables, each listed in its model's default
query order. -/
structure NftDb where
  port_forwards : List PortForward
  nftable_rules : List NFTableRule

/-- Python's `str.lower()` (character-wise lowering; the protocol strings in
this code base are ASCII). -/
def pyLower (s : String) : String := ⟨s.data.map Char.toLower⟩

/-- The protocols one `PortForward` expands to (`'both'` becomes tcp and udp),
from `_generate_port_forward_rules` / `_generate_dnat_rules`. -/
def protoList (pf : PortForward) : List String :=
  if pyLower pf.protocol = "both" then ["tcp", "udp"] else [pyLower pf.protocol]

/-- The lines contributed by one enabled `PortForward` to the forward chain. -/
def pfRuleLines (pf : PortForward) : List String :=
  ("        # Port forward " ++ toString pf.external_port ++ " -> "
      ++ pf.internal_ip ++ ":" ++ toString pf.internal_port)
    :: (protoList pf).map (fun proto =>
      "        ip daddr " ++ pf.internal_ip ++ " " ++ proto ++ " dport "
        ++ toString pf.internal_port ++ " accept")

/-- `NFTablesConfigManager._generate_port_forward_rules`. -/
def generate_port_forward_rules (pfs : List PortForward) : String :=
  let rules := (pfs.filter (·.enabled)).flatMap pfRuleLines
  if rules = [] then "        # No port forwarding rules"
  else String.intercalate "\n" rules

/-- The lines contributed by one enabled `PortForward` to the DNAT chain. -/
def dnatRuleLines (pf : PortForward) : List String :=
  ("        # DNAT for port " ++ toString pf.external_port ++ " -> "
      ++ pf.internal_ip ++ ":" ++ toString pf.internal_port)
    :: (protoList pf).map (fun proto =>
      "        " ++ proto ++ " dport " ++ toString pf.external_port
        ++ " dnat to " ++ pf.internal_ip ++ ":" ++ toString pf.internal_port)

/-- `NFTablesConfigManager._generate_dnat_rules`. -/
def generate_dnat_rules (pfs : List PortForward) : String :=
  let rules := (pfs.filter (·.enabled)).flatMap dnatRuleLines
  if rules = [] then "        # No DNAT rules"
  else String.intercalate "\n" rules

/-- `NFTablesConfigManager._build_nftables_rule_from_model`. -/
def buildNftablesRule (rule : NFTableRule) : String :=
  let parts1 : List String :=
    if strTruthy rule.source_ip then ["ip saddr " ++ rule.source_ip.getD ""] else []
  let parts2 : List String := parts1 ++
    (if strTruthy rule.destination_ip then ["ip daddr " ++ rule.destination_ip.getD ""] else [])
  let parts3 : List String := parts2 ++
    (if rule.protocol ≠ "" ∧ rule.protocol ≠ "all" then
      (if rule.protocol = "tcp" ∨ rule.protocol = "udp" then
        let port_parts : List String :=
          (if natTruthy rule.source_port then
            ["sport " ++ toString (rule.source_port.getD 0)] else []) ++
          (if natTruthy rule.destination_port then
            ["dport " ++ toString (rule.destination_port.getD 0)] else [])
        if port_parts = [] then [rule.protocol]
        else [rule.protocol ++ " " ++ String.intercalate " " port_parts]
      else [rule.protocol])
    else
      (if natTruthy rule.source_port ∨ natTruthy rule.destination_port then
        [String.intercalate " " ("tcp" ::
          ((if natTruthy rule.source_port then
            ["sport " ++ toString (rule.source_port.getD 0)] else []) ++
          (if natTruthy rule.destination_port then
            ["dport " ++ toString (rule.destination_port.getD 0)] else [])))]
      else []))
  String.intercalate " " (parts3 ++ [rule.action])

/-- The lines contributed by one enabled `NFTableRule` to the input chain. -/
def fwRuleLines (rule : NFTableRule) : List String :=
  ["        # " ++ rule.name, "        " ++ buildNftablesRule rule]

/-- `NFTablesConfigManager._generate_firewall_rules`. -/
def generate_firewall_rules (rules : List NFTableRule) : String :=
  let rs := (rules.filter (·.enabled)).flatMap fwRuleLines
  if rs = [] then "        # No custom firewall rules"
  else String.intercalate "\n" rs

/-- `NFTablesConfigManager.generate_config`: the base template with the three
placeholders replaced (forward rules first, then DNAT, then firewall). -/
def generate_config (db : NftDb) : String :=
  pyReplaceS
    (pyReplaceS
      (pyReplaceS base_config forwardPH (generate_port_forward_rules db.port_forwards))
      dnatPH (generate_dnat_rules db.port_forwards))
    firewallPH (generate_firewall_rules db.nftable_rules)

/-! ### Concrete facts about the template -/

theorem base_config_decomp :
    base_config = tmplQ0 ++ firewallPH ++ tmplQ1 ++ forwardPH ++ tmplQ2 ++ dnatPH ++ tmplQ3 := rfl

theorem tmplA1_decomp : tmplA1 = tmplQ0 ++ firewallPH ++ tmplQ1 := rfl

theorem tmplT1_decomp : tmplT1 = tmplQ2 ++ dnatPH ++ tmplQ3 := rfl

theorem base_config_decomp' : base_config = tmplA1 ++ forwardPH ++ tmplT1 := rfl

theorem data_append (s t : String) : (s ++ t).data = s.data ++ t.data := by
  cases s; cases t; rfl

theorem tmplT1_head : tmplT1.data = '\n' :: tmplT1t.data := rfl

theorem tmplQ2_head : tmplQ2.data = '\n' :: tmplQ2t.data := rfl

theorem tmplQ3_head : tmplQ3.data = '\n' :: tmplQ3t.data := rfl

theorem chk_fwd_A1 : noStart forwardPH.data tmplA1.data = true := by decide

theorem chk_fwd_T1 : containsSub forwardPH.data tmplT1.data = false := by decide

theorem chk_dnat_A1 : noStart dnatPH.data tmplA1.data = true := by decide

theorem chk_dnat_Q2 : noStart dnatPH.data tmplQ2.data = true := by decide

theorem chk_dnat_Q3 : containsSub dnatPH.data tmplQ3.data = false := by decide

theorem chk_fw_Q0 : noStart firewallPH.data tmplQ0.data = true := by decide

theorem chk_fw_Q1 : noStart firewallPH.data tmplQ1.data = true := by decide

theorem chk_fw_Q2 : noStart firewallPH.data tmplQ2.data = true := by decide

theorem chk_fw_Q3 : containsSub firewallPH.data tmplQ3.data = false := by decide

theorem newline_not_in_dnatPH : '\n' ∉ dnatPH.data := by decide

theorem newline_not_in_firewallPH : '\n' ∉ firewallPH.data := by decide

theorem forwardPH_ne_nil : forwardPH.data ≠ [] := by decide

theorem dnatPH_ne_nil : dnatPH.data ≠ [] := by decide

theorem firewallPH_ne_nil : firewallPH.data ≠ [] := by decide

theorem strExt {a b : String} (h : a.data = b.data) : a = b :=
  congrArg String.mk h

theorem strAppend_assoc (a b c : String) : (a ++ b) ++ c = a ++ (b ++ c) := by
  apply strExt
  simp [data_append, List.append_assoc]

/-- Stage 1: replacing the forward placeholder in the base template. -/
theorem replace_forward_stage (rf : List Char) :
    pyReplace forwardPH.data rf base_config.data = tmplA1.data ++ rf ++ tmplT1.data := by
  have h0 : base_config.data = tmplA1.data ++ (forwardPH.data ++ tmplT1.data) := by
    conv_lhs => rw [base_config_decomp']
    rw [data_append, data_append, List.append_assoc]
  rw [h0, pyReplace_append_left _ _ _ _ chk_fwd_A1,
      pyReplace_hit _ _ _ forwardPH_ne_nil
        ((isPrefixOf_iff _ _).mpr (List.prefix_append _ _)),
      List.drop_left, pyReplace_eq_self _ _ _ chk_fwd_T1, List.append_assoc]

/-- Stage 2: replacing the DNAT placeholder in the stage-1 output. -/
theorem replace_dnat_stage (rf rd : List Char) :
    pyReplace dnatPH.data rd (tmplA1.data ++ rf ++ tmplT1.data)
      = tmplA1.data ++ pyReplace dnatPH.data rd rf
          ++ (tmplQ2.data ++ rd ++ tmplQ3.data) := by
  have hT1 : tmplT1.data = tmplQ2.data ++ (dnatPH.data ++ tmplQ3.data) := by
    conv_lhs => rw [tmplT1_decomp]
    rw [data_append, data_append, List.append_assoc]
  rw [List.append_assoc, pyReplace_append_left _ _ _ _ chk_dnat_A1, tmplT1_head,
      pyReplace_append_split dnatPH.data rd dnatPH_ne_nil '\n' newline_not_in_dnatPH
        rf tmplT1t.data,
      ← tmplT1_head, hT1, pyReplace_append_left _ _ _ _ chk_dnat_Q2,
      pyReplace_hit _ _ _ dnatPH_ne_nil
        ((isPrefixOf_iff _ _).mpr (List.prefix_append _ _)),
      List.drop_left, pyReplace_eq_self _ _ _ chk_dnat_Q3]
  simp [List.append_assoc]

/-- Stage 3: replacing the firewall placeholder in the stage-2 output. -/
theorem replace_firewall_stage (x y rw0 : List Char) :
    pyReplace firewallPH.data rw0 (tmplA1.data ++ x ++ (tmplQ2.data ++ y ++ tmplQ3.data))
      = tmplQ0.data ++ rw0 ++ tmplQ1.data ++ pyReplace firewallPH.data rw0 x
          ++ tmplQ2.data ++ pyReplace firewallPH.data rw0 y ++ tmplQ3.data := by
  have hA1 : tmplA1.data = tmplQ0.data ++ (firewallPH.data ++ tmplQ1.data) := by
    conv_lhs => rw [tmplA1_decomp]
    rw [data_append, data_append, List.append_assoc]
  rw [hA1]
  simp only [List.append_assoc]
  rw [pyReplace_append_left _ _ _ _ chk_fw_Q0,
      pyReplace_hit _ _ _ firewallPH_ne_nil
        ((isPrefixOf_iff _ _).mpr (List.prefix_append _ _)),
      List.drop_left, pyReplace_append_left _ _ _ _ chk_fw_Q1, tmplQ2_head]
  simp only [List.cons_append]
  have hq2X : ∀ Z : List Char, '\n' :: (tmplQ2t.data ++ Z) = tmplQ2.data ++ Z := by
    intro Z
    rw [tmplQ2_head]
    rfl
  rw [pyReplace_append_split firewallPH.data rw0 firewallPH_ne_nil '\n'
        newline_not_in_firewallPH x (tmplQ2t.data ++ (y ++ tmplQ3.data)),
      hq2X (y ++ tmplQ3.data),
      pyReplace_append_left _ _ _ _ chk_fw_Q2, tmplQ3_head,
      pyReplace_append_split firewallPH.data rw0 firewallPH_ne_nil '\n'
        newline_not_in_firewallPH y tmplQ3t.data,
      ← tmplQ3_head, pyReplace_eq_self _ _ _ chk_fw_Q3]
  simp [List.append_assoc, hq2X]

theorem pyReplaceS_data (s pat rep : String) :
    (pyReplaceS s pat rep).data = pyReplace pat.data rep.data s.data := rfl

theorem pyReplaceS_eq_self (s pat rep : String)
    (h : containsSub pat.data s.data = false) : pyReplaceS s pat rep = s :=
  strExt (pyReplace_eq_self _ _ _ h)

/-- Full characterisation of `generate_config`: the three placeholders are
replaced and every other character of the template is left as it was.  The
text standing where `forwardPH` (resp. `dnatPH`) stood is the generated
forward (resp. DNAT) rule text, further subjected to the later `replace`
calls — exactly as Python's sequential `str.replace` behaves. -/
theorem generate_config_decomp (db : NftDb) :
    generate_config db
      = tmplQ0 ++ generate_firewall_rules db.nftable_rules ++ tmplQ1
          ++ pyReplaceS (pyReplaceS (generate_port_forward_rules db.port_forwards)
              dnatPH (generate_dnat_rules db.port_forwards))
              firewallPH (generate_firewall_rules db.nftable_rules)
          ++ tmplQ2
          ++ pyReplaceS (generate_dnat_rules db.port_forwards)
              firewallPH (generate_firewall_rules db.nftable_rules)
          ++ tmplQ3 := by
  apply strExt
  simp only [generate_config, pyReplaceS_data, data_append]
  rw [replace_forward_stage, replace_dnat_stage, replace_firewall_stage]

theorem filter_enabled_idem {α} (p : α → Bool) (l : List α) :
    (l.filter p).filter p = l.filter p := by
  simp [List.filter_filter]

theorem generate_pf_enabled (pfs : List PortForward) :
    generate_port_forward_rules (pfs.filter (·.enabled))
      = generate_port_forward_rules pfs := by
  simp only [generate_port_forward_rules, filter_enabled_idem]

theorem generate_dnat_enabled (pfs : List PortForward) :
    generate_dnat_rules (pfs.filter (·.enabled)) = generate_dnat_rules pfs := by
  simp only [generate_dnat_rules, filter_enabled_idem]

theorem generate_fw_enabled (rules : List NFTableRule) :
    generate_firewall_rules (rules.filter (·.enabled))
      = generate_firewall_rules rules := by
  simp only [generate_firewall_rules, filter_enabled_idem]

/-- Claim C3: for every database state, `NFTablesConfigManager.generate_config`
returns exactly the fixed base template with its three placeholder comment
lines replaced by rule text derived only from the enabled `PortForward` and
`NFTableRule` rows (protocol `'both'` expanding to one tcp and one udp rule,
disabled rows contributing nothing); every other character of the template is
unchanged, and when a rule set is empty the placeholder is replaced by a
fixed no-rules comment.  The first conjunct is the unconditional shape (the
later `replace` calls also traverse previously inserted rule text, so the
inserted texts appear with the later replacements applied to them); the second
conjunct shows that whenever the generated rule texts do not themselves
contain a placeholder — in particular always in practice — the placeholders
are replaced by the three rule texts verbatim. -/
theorem claim_C3 (db : NftDb) :
    (generate_config db
        = tmplQ0 ++ generate_firewall_rules db.nftable_rules ++ tmplQ1
            ++ pyReplaceS (pyReplaceS (generate_port_forward_rules db.port_forwards)
                dnatPH (generate_dnat_rules db.port_forwards))
                firewallPH (generate_firewall_rules db.nftable_rules)
            ++ tmplQ2
            ++ pyReplaceS (generate_dnat_rules db.port_forwards)
                firewallPH (generate_firewall_rules db.nftable_rules)
            ++ tmplQ3)
    ∧ (containsSub dnatPH.data (generate_port_forward_rules db.port_forwards).data = false →
       containsSub firewallPH.data (generate_port_forward_rules db.port_forwards).data = false →
       containsSub firewallPH.data (generate_dnat_rules db.port_forwards).data = false →
       generate_config db
         = tmplQ0 ++ generate_firewall_rules db.nftable_rules ++ tmplQ1
             ++ generate_port_forward_rules db.port_forwards ++ tmplQ2
             ++ generate_dnat_rules db.port_forwards ++ tmplQ3)
    ∧ generate_config db
        = generate_config
            ⟨db.port_forwards.filter (·.enabled), db.nftable_rules.filter (·.enabled)⟩
    ∧ (db.port_forwards.filter (·.enabled) = [] →
        generate_port_forward_rules db.port_forwards = "        # No port forwarding rules"
        ∧ generate_dnat_rules db.port_forwards = "        # No DNAT rules")
    ∧ (db.nftable_rules.filter (·.enabled) = [] →
        generate_firewall_rules db.nftable_rules = "        # No custom firewall rules")
    ∧ (∀ pf : PortForward, pyLower pf.protocol = "both" →
        pfRuleLines pf
          = ["        # Port forward " ++ toString pf.external_port ++ " -> "
                ++ pf.internal_ip ++ ":" ++ toString pf.internal_port,
             "        ip daddr " ++ pf.internal_ip ++ " tcp dport "
                ++ toString pf.internal_port ++ " accept",
             "        ip daddr " ++ pf.internal_ip ++ " udp dport "
                ++ toString pf.internal_port ++ " accept"]
        ∧ dnatRuleLines pf
          = ["        # DNAT for port " ++ toString pf.external_port ++ " -> "
                ++ pf.internal_ip ++ ":" ++ toString pf.internal_port,
             "        tcp dport " ++ toString pf.external_port ++ " dnat to "
                ++ pf.internal_ip ++ ":" ++ toString pf.internal_port,
             "        udp dport " ++ toString pf.external_port ++ " dnat to "
                ++ pf.internal_ip ++ ":" ++ toString pf.internal_port]) := by
  refine ⟨generate_config_decomp db, ?_, ?_, ?_, ?_, ?_⟩
  · intro h1 h2 h3
    rw [generate_config_decomp db, pyReplaceS_eq_self _ _ _ h1,
        pyReplaceS_eq_self _ _ _ h2, pyReplaceS_eq_self _ _ _ h3]
  · simp only [generate_config]
    rw [generate_pf_enabled, generate_dnat_enabled, generate_fw_enabled]
  · intro h
    constructor
    · simp [generate_port_forward_rules, h]
    · simp [generate_dnat_rules, h]
  · intro h
    simp [generate_firewall_rules, h]
  · intro pf h
    constructor
    · simp only [pfRuleLines, protoList, h, if_pos, List.map, strAppend_assoc,
        List.cons.injEq]
      repeat' apply And.intro
      all_goals first
      | rfl
      | exact trivial
    · simp only [dnatRuleLines, protoList, h, if_pos, List.map, strAppend_assoc,
        List.cons.injEq]
      repeat' apply And.intro
      all_goals first
      | rfl
      | exact trivial

/-- Concrete instantiation of `claim_C3`: on an empty database the generated
configuration is the template with the three fixed no-rules comments, and a
`'both'` port-forward expands to one tcp and one udp line. -/
theorem claim_C3_witness :
    generate_config ⟨[], []⟩
        = tmplQ0 ++ "        # No custom firewall rules" ++ tmplQ1
            ++ "        # No port forwarding rules" ++ tmplQ2
            ++ "        # No DNAT rules" ++ tmplQ3
    ∧ pfRuleLines ⟨"web", 80, "10.0.0.2", 8080, "both", true⟩
        = ["        # Port forward 80 -> 10.0.0.2:8080",
           "        ip daddr 10.0.0.2 tcp dport 8080 accept",
           "        ip daddr 10.0.0.2 udp dport 8080 accept"] := by
  have h := claim_C3 ⟨[], []⟩
  constructor
  · have h4 := h.2.2.2.1 (by decide)
    have h5 := h.2.2.2.2.1 (by decide)
    have h2 := h.2.1 (by decide) (by decide) (by decide)
    rw [h4.1, h4.2, h5] at h2
    exact h2
  · have h6 := (h.2.2.2.2.2 ⟨"web", 80, "10.0.0.2", 8080, "both", true⟩ (by decide)).1
    simpa using h6

/-! ## Alert evaluation (`monitoring/utils.py::SystemMonitor`)

Metric values and thresholds are Django `FloatField`s that the code only
ever compares, never combines arithmetically, so they are modelled as `Rat`.
Timestamps are modelled as integer seconds; `timedelta(minutes=m)` is
`60 * m` seconds and Python's floor division `//` is `Int.fdiv`.
-/

/-- `SystemMonitor.evaluate_alert_condition`. -/
def evaluate_alert_condition (current_value : ℚ) (operator : String) (threshold : ℚ) : Bool :=
  if operator = ">" then decide (current_value > threshold)
  else if operator = "<" then decide (current_value < threshold)
  else if operator = ">=" then decide (current_value ≥ threshold)
  else if operator = "<=" then decide (current_value ≤ threshold)
  else if operator = "==" then decide (current_value = threshold)
  else if operator = "!=" then decide (current_value ≠ threshold)
  else false

/-- Claim C2: `evaluate_alert_condition` returns exactly the corresponding
comparison for the six operator strings, and `false` for every other
operator string. -/
theorem claim_C2 (v t : ℚ) (op : String) :
    (evaluate_alert_condition v ">" t = true ↔ v > t)
    ∧ (evaluate_alert_condition v "<" t = true ↔ v < t)
    ∧ (evaluate_alert_condition v ">=" t = true ↔ v ≥ t)
    ∧ (evaluate_alert_condition v "<=" t = true ↔ v ≤ t)
    ∧ (evaluate_alert_condition v "==" t = true ↔ v = t)
    ∧ (evaluate_alert_condition v "!=" t = true ↔ v ≠ t)
    ∧ (op ∉ ([">", "<", ">=", "<=", "==", "!="] : List String) →
        evaluate_alert_condition v op t = false) := by
  refine ⟨?_, ?_, ?_, ?_, ?_, ?_, ?_⟩
  · simp [evaluate_alert_condition]
  · simp [evaluate_alert_condition]
  · simp [evaluate_alert_condition]
  · simp [evaluate_alert_condition]
  · simp [evaluate_alert_condition]
  · simp [evaluate_alert_condition]
  · intro h
    simp only [List.mem_cons, List.not_mem_nil, or_false, not_or] at h
    obtain ⟨h1, h2, h3, h4, h5, h6⟩ := h
    simp [evaluate_alert_condition, h1, h2, h3, h4, h5, h6]

/-- Concrete instantiation of `claim_C2` for an unknown operator string. -/
theorem claim_C2_witness :
    ("invalid" ∉ ([">", "<", ">=", "<=", "==", "!="] : List String))
    ∧ evaluate_alert_condition 1 "invalid" 2 = false :=
  ⟨by decide, (claim_C2 1 2 "invalid").2.2.2.2.2.2 (by decide)⟩

/-- Row of the `Alert` table (`monitoring/models.py`). -/
structure Alert where
  id : Nat
  name : String
  metric_type : String
  threshold_value : ℚ
  comparison_operator : String
  severity : String
  enabled : Bool
  notification_enabled : Bool
  email_recipients : List String
  check_interval : Int
  source : String
  last_checked : Option Int
  last_triggered : Option Int
deriving DecidableEq, Repr

/-- Row of the `MetricData` table (`monitoring/models.py`). -/
structure MetricData where
  metric_type : String
  value : ℚ
  unit : String
  source : String
  timestamp : Int
deriving DecidableEq, Repr

/-- Row of the `AlertInstance` table (`monitoring/models.py`). -/
structure AlertInstance where
  alert_id : Nat
  triggered_at : Int
  value_at_trigger : ℚ
  source : String
  message : String
  notification_sent : Bool
deriving DecidableEq, Repr

/-- Database state seen by `SystemMonitor.check_alerts`; `metrics` is listed
in the `MetricData` model's default query order (newest first), and `now` is
the current time in seconds. -/
structure MonitorState where
  alerts : List Alert
  metrics : List MetricData
  instances : List AlertInstance
  now : Int

/-- The `MetricData.objects.filter(metric_type=…, source=…).first()` query in
`check_alerts` (first row in `-timestamp` order). -/
def latest_metric (metrics : List MetricData) (a : Alert) : Option MetricData :=
  (metrics.filter (fun m =>
    m.metric_type == a.metric_type
      && m.source == (if a.source ≠ "" then a.source else ""))).head?

/-- The `AlertInstance.objects.filter(alert=…, triggered_at__gte=…).exists()`
query in `check_alerts`: `timedelta(minutes=alert.check_interval // 60)`. -/
def recent_trigger (instances : List AlertInstance) (a : Alert) (now : Int) : Bool :=
  instances.any (fun i =>
    i.alert_id == a.id && decide (i.triggered_at ≥ now - 60 * Int.fdiv a.check_interval 60))

/-- `AlertInstance.send_notification` (`monitoring/models.py`): returns the
instance as stored afterwards.  `email_ok` tells whether `send_mail`
succeeded (on failure the exception is logged and `notification_sent` stays
false). -/
def send_notification (email_ok : Bool) (a : Alert) (inst : AlertInstance) : AlertInstance :=
  if !a.notification_enabled || inst.notification_sent then inst
  else if a.email_recipients.isEmpty then inst
  else if email_ok then { inst with notification_sent := true } else inst

/-- The f-string message stored on a new `AlertInstance` (`Rat` rendering
standing in for Python float rendering of the threshold). -/
def alert_message (a : Alert) : String :=
  "Alert triggered: " ++ a.metric_type ++ " " ++ a.comparison_operator ++ " "
    ++ toString a.threshold_value

/-- The body of the `for alert in alerts:` loop of `check_alerts` for one
alert: returns the saved alert and the created instance, if any (after
`send_notification` ran on it). -/
def process_alert (email_ok : Nat → Bool) (now : Int) (metrics : List MetricData)
    (instances : List AlertInstance) (a : Alert) : Alert × Option AlertInstance :=
  match latest_metric metrics a with
  | none => (a, none)
  | some m =>
    let should := evaluate_alert_condition m.value a.comparison_operator a.threshold_value
    let a1 := { a with last_checked := some now }
    if should then
      if recent_trigger instances a now then
        (a1, none)
      else
        let inst : AlertInstance :=
          { alert_id := a.id, triggered_at := now, value_at_trigger := m.value,
            source := m.source, message := alert_message a, notification_sent := false }
        let inst' := send_notification (email_ok a.id) a inst
        ({ a1 with last_triggered := some now }, some inst')
    else (a1, none)

/-- The `check_alerts` loop over a list of (enabled) alerts, threading the
`AlertInstance` table.  Returns the saved alerts, the final instance table
and the list of created instances in processing order. -/
def check_alerts_go (email_ok : Nat → Bool) (now : Int) (metrics : List MetricData) :
    List Alert → List AlertInstance → List Alert × List AlertInstance × List AlertInstance
  | [], instances => ([], instances, [])
  | a :: rest, instances =>
    match process_alert email_ok now metrics instances a with
    | (a', none) =>
      let r := check_alerts_go email_ok now metrics rest instances
      (a' :: r.1, r.2.1, r.2.2)
    | (a', some inst) =>
      let r := check_alerts_go email_ok now metrics rest (inst :: instances)
      (a' :: r.1, r.2.1, inst :: r.2.2)

/-- `SystemMonitor.check_alerts`: iterates over
`Alert.objects.filter(enabled=True)`. -/
def check_alerts (email_ok : Nat → Bool) (s : MonitorState) :
    List Alert × List AlertInstance × List AlertInstance :=
  check_alerts_go email_ok s.now s.metrics (s.alerts.filter (·.enabled)) s.instances

/-- Declarative form of one comparison holding, as the claim words it. -/
def comparison_holds (op : String) (v t : ℚ) : Prop :=
  (op = ">" ∧ v > t) ∨ (op = "<" ∧ v < t) ∨ (op = ">=" ∧ v ≥ t)
    ∨ (op = "<=" ∧ v ≤ t) ∨ (op = "==" ∧ v = t) ∨ (op = "!=" ∧ v ≠ t)

/-- Declarative firing condition of the claim: the alert is enabled, its
latest matching metric satisfies the comparison, and no instance of this
alert was triggered within the last `check_interval // 60` minutes. -/
def alert_fires (s : MonitorState) (a : Alert) : Prop :=
  a.enabled = true
    ∧ ∃ m, latest_metric s.metrics a = some m
        ∧ comparison_holds a.comparison_operator m.value a.threshold_value
        ∧ ¬ ∃ i ∈ s.instances, i.alert_id = a.id
            ∧ i.triggered_at ≥ s.now - 60 * Int.fdiv a.check_interval 60

theorem evaluate_iff (v t : ℚ) (op : String) :
    evaluate_alert_condition v op t = true ↔ comparison_holds op v t := by
  simp only [evaluate_alert_condition, comparison_holds]
  split_ifs with h1 h2 h3 h4 h5 h6 <;> simp_all

theorem recent_trigger_iff (instances : List AlertInstance) (a : Alert) (now : Int) :
    recent_trigger instances a now = true
      ↔ ∃ i ∈ instances, i.alert_id = a.id
          ∧ i.triggered_at ≥ now - 60 * Int.fdiv a.check_interval 60 := by
  rw [recent_trigger, List.any_eq_true]
  constructor
  · rintro ⟨i, hi, hcond⟩
    rw [Bool.and_eq_true, beq_iff_eq, decide_eq_true_eq] at hcond
    exact ⟨i, hi, hcond.1, hcond.2⟩
  · rintro ⟨i, hi, h1, h2⟩
    refine ⟨i, hi, ?_⟩
    rw [Bool.and_eq_true, beq_iff_eq, decide_eq_true_eq]
    exact ⟨h1, h2⟩

theorem recent_trigger_append (pre base : List AlertInstance) (a : Alert) (now : Int)
    (h : ∀ i ∈ pre, i.alert_id ≠ a.id) :
    recent_trigger (pre ++ base) a now = recent_trigger base a now := by
  simp only [recent_trigger, List.any_append]
  have hpre : pre.any (fun i =>
      i.alert_id == a.id
        && decide (i.triggered_at ≥ now - 60 * Int.fdiv a.check_interval 60)) = false := by
    rw [List.any_eq_false]
    intro i hi
    simp [h i hi]
  rw [hpre, Bool.false_or]

theorem process_alert_congr (email_ok : Nat → Bool) (now : Int)
    (metrics : List MetricData) (pre base : List AlertInstance) (a : Alert)
    (h : ∀ i ∈ pre, i.alert_id ≠ a.id) :
    process_alert email_ok now metrics (pre ++ base) a
      = process_alert email_ok now metrics base a := by
  simp only [process_alert, recent_trigger_append pre base a now h]

theorem send_notification_preserves (e : Bool) (a : Alert) (i : AlertInstance) :
    (send_notification e a i).alert_id = i.alert_id
    ∧ (send_notification e a i).triggered_at = i.triggered_at
    ∧ (send_notification e a i).value_at_trigger = i.value_at_trigger
    ∧ (send_notification e a i).source = i.source := by
  unfold send_notification
  split_ifs <;> exact ⟨rfl, rfl, rfl, rfl⟩

theorem process_alert_some_id (email_ok : Nat → Bool) (now : Int)
    (metrics : List MetricData) (instances : List AlertInstance) (a : Alert)
    (i : AlertInstance)
    (h : (process_alert email_ok now metrics instances a).2 = some i) :
    i.alert_id = a.id := by
  unfold process_alert at h
  cases hm : latest_metric metrics a with
  | none => rw [hm] at h; exact absurd h (by simp)
  | some m =>
    rw [hm] at h
    simp only at h
    split_ifs at h with h1 h2
    replace h : send_notification (email_ok a.id) a
        { alert_id := a.id, triggered_at := now, value_at_trigger := m.value,
          source := m.source, message := alert_message a,
          notification_sent := false } = i := by
      simpa using h
    rw [← h]
    unfold send_notification
    split_ifs <;> rfl

theorem check_alerts_go_table (e : Nat → Bool) (now : Int) (met : List MetricData) :
    ∀ (alerts : List Alert) (instances : List AlertInstance),
      (check_alerts_go e now met alerts instances).2.1
        = (check_alerts_go e now met alerts instances).2.2.reverse ++ instances := by
  intro alerts
  induction alerts with
  | nil => intro instances; simp [check_alerts_go]
  | cons a rest ih =>
    intro instances
    simp only [check_alerts_go]
    cases hpa : process_alert e now met instances a with
    | mk a' o =>
      cases o with
      | none => simpa using ih instances
      | some inst =>
        simp only []
        rw [ih (inst :: instances)]
        simp [List.append_assoc]

theorem check_alerts_go_created (e : Nat → Bool) (now : Int) (met : List MetricData) :
    ∀ (alerts : List Alert) (pre base : List AlertInstance),
      (∀ i ∈ pre, ∀ a ∈ alerts, i.alert_id ≠ a.id) →
      ((alerts.map (·.id)).Nodup) →
      (check_alerts_go e now met alerts (pre ++ base)).2.2
        = alerts.filterMap (fun a => (process_alert e now met base a).2) := by
  intro alerts
  induction alerts with
  | nil => intro pre base _ _; simp [check_alerts_go]
  | cons a rest ih =>
    intro pre base hpre hnd
    have hnd' : ((rest.map (·.id)).Nodup) ∧ a.id ∉ rest.map (·.id) := by
      rw [List.map_cons, List.nodup_cons] at hnd
      exact ⟨hnd.2, hnd.1⟩
    have hcongr : process_alert e now met (pre ++ base) a
        = process_alert e now met base a :=
      process_alert_congr e now met pre base a
        (fun i hi => hpre i hi a (List.mem_cons_self a rest))
    simp only [check_alerts_go, hcongr]
    cases hres : process_alert e now met base a with
    | mk a' o =>
      cases o with
      | none =>
        simp only [List.filterMap_cons, hres]
        exact ih pre base
          (fun i hi b hb => hpre i hi b (List.mem_cons_of_mem a hb)) hnd'.1
      | some inst =>
        have hid : inst.alert_id = a.id :=
          process_alert_some_id e now met base a inst (by rw [hres])
        have hpre' : ∀ i ∈ inst :: pre, ∀ b ∈ rest, i.alert_id ≠ b.id := by
          intro i hi b hb
          rcases List.mem_cons.mp hi with h | h
          · rw [h, hid]
            intro hcontra
            exact hnd'.2 (hcontra ▸ List.mem_map_of_mem (·.id) hb)
          · exact hpre i h b (List.mem_cons_of_mem a hb)
        simp only [List.filterMap_cons, hres]
        rw [show inst :: (pre ++ base) = (inst :: pre) ++ base from rfl] at *
        rw [ih (inst :: pre) base hpre' hnd'.1]

theorem filter_by_id_nil (f : Alert → Option AlertInstance)
    (hf : ∀ b i, f b = some i → i.alert_id = b.id) :
    ∀ (alerts : List Alert) (n : ℕ), n ∉ alerts.map (·.id) →
      (alerts.filterMap f).filter (fun i => i.alert_id == n) = [] := by
  intro alerts
  induction alerts with
  | nil => intro n _; rfl
  | cons b rest ih =>
    intro n hn
    rw [List.map_cons, List.mem_cons] at hn
    push_neg at hn
    cases hfb : f b with
    | none =>
      simp only [List.filterMap_cons, hfb]
      exact ih n hn.2
    | some i =>
      simp only [List.filterMap_cons, hfb, List.filter_cons]
      have hcond : ¬ ((i.alert_id == n) = true) := by
        rw [hf b i hfb]
        intro hc
        exact hn.1 (beq_iff_eq.mp hc).symm
      rw [if_neg hcond]
      exact ih n hn.2

theorem filter_by_id (f : Alert → Option AlertInstance)
    (hf : ∀ b i, f b = some i → i.alert_id = b.id) :
    ∀ (alerts : List Alert), ((alerts.map (·.id)).Nodup) →
      ∀ a ∈ alerts,
        (alerts.filterMap f).filter (fun i => i.alert_id == a.id) = (f a).toList := by
  intro alerts
  induction alerts with
  | nil => intro _ a ha; exact absurd ha (List.not_mem_nil a)
  | cons b rest ih =>
    intro hnd a ha
    rw [List.map_cons, List.nodup_cons] at hnd
    rcases List.mem_cons.mp ha with h | h
    · subst h
      cases hfb : f a with
      | none =>
        simp only [List.filterMap_cons, hfb]
        rw [filter_by_id_nil f hf rest a.id hnd.1]
        rfl
      | some i =>
        simp only [List.filterMap_cons, hfb, List.filter_cons]
        have hcond : (i.alert_id == a.id) = true := by
          rw [hf a i hfb]
          exact beq_self_eq_true a.id
        rw [if_pos hcond, filter_by_id_nil f hf rest a.id hnd.1]
        rfl
    · have hne : b.id ≠ a.id := by
        intro hcontra
        exact hnd.1 (hcontra ▸ List.mem_map_of_mem (·.id) h)
      cases hfb : f b with
      | none =>
        simp only [List.filterMap_cons, hfb]
        exact ih hnd.2 a h
      | some i =>
        simp only [List.filterMap_cons, hfb, List.filter_cons]
        have hcond : ¬ ((i.alert_id == a.id) = true) := by
          rw [hf b i hfb]
          intro hc
          exact hne (beq_iff_eq.mp hc)
        rw [if_neg hcond]
        exact ih hnd.2 a h

/-- Claim C1: for every enabled alert whose latest matching metric satisfies
the alert's comparison and that has no instance triggered within the last
`check_interval // 60` minutes, one `check_alerts` call creates exactly one
new `AlertInstance` (with `value_at_trigger` and `source` taken from the
latest metric) and invokes `send_notification` on it; otherwise no instance
is created for that alert.  `(check_alerts …).2.2` is the list of created
instances, `(check_alerts …).2.1` the resulting `AlertInstance` table.  The
hypothesis says the alert rows have pairwise distinct primary keys, as table
rows do. -/
theorem claim_C1 (email_ok : Nat → Bool) (s : MonitorState)
    (hnd : (s.alerts.map (·.id)).Nodup) :
    (∀ a ∈ s.alerts, alert_fires s a →
      ∃ m, latest_metric s.metrics a = some m
        ∧ ((check_alerts email_ok s).2.2.filter (fun i => i.alert_id == a.id)).length = 1
        ∧ ∀ i ∈ (check_alerts email_ok s).2.2, i.alert_id = a.id →
            i.value_at_trigger = m.value ∧ i.source = m.source ∧ i.triggered_at = s.now
              ∧ i = send_notification (email_ok a.id) a
                  { alert_id := a.id, triggered_at := s.now,
                    value_at_trigger := m.value, source := m.source,
                    message := alert_message a, notification_sent := false })
    ∧ (∀ a ∈ s.alerts, ¬ alert_fires s a →
        (check_alerts email_ok s).2.2.filter (fun i => i.alert_id == a.id) = [])
    ∧ (check_alerts email_ok s).2.1
        = (check_alerts email_ok s).2.2.reverse ++ s.instances := by
  have hsub : List.Sublist ((s.alerts.filter (·.enabled)).map (·.id))
      (s.alerts.map (·.id)) :=
    (List.filter_sublist s.alerts).map _
  have hndE : ((s.alerts.filter (·.enabled)).map (·.id)).Nodup := hnd.sublist hsub
  have hf_id : ∀ b i,
      (process_alert email_ok s.now s.metrics s.instances b).2 = some i →
        i.alert_id = b.id :=
    fun b i h => process_alert_some_id email_ok s.now s.metrics s.instances b i h
  have hcreated : (check_alerts email_ok s).2.2
      = (s.alerts.filter (·.enabled)).filterMap
          (fun a => (process_alert email_ok s.now s.metrics s.instances a).2) := by
    unfold check_alerts
    rw [show s.instances = [] ++ s.instances from (List.nil_append _).symm]
    exact check_alerts_go_created email_ok s.now s.metrics _ [] s.instances
      (fun i hi => absurd hi (List.not_mem_nil i)) hndE
  refine ⟨?_, ?_, ?_⟩
  · intro a ha hfires
    obtain ⟨hen, m, hm, hcomp, hnorecent⟩ := hfires
    have haE : a ∈ s.alerts.filter (·.enabled) := List.mem_filter.mpr ⟨ha, hen⟩
    have heval : evaluate_alert_condition m.value a.comparison_operator a.threshold_value
        = true := (evaluate_iff _ _ _).mpr hcomp
    have hrec : recent_trigger s.instances a s.now = false := by
      cases hrt : recent_trigger s.instances a s.now with
      | false => rfl
      | true => exact absurd ((recent_trigger_iff _ _ _).mp hrt) hnorecent
    have hfa : (process_alert email_ok s.now s.metrics s.instances a).2
        = some (send_notification (email_ok a.id) a
            { alert_id := a.id, triggered_at := s.now,
              value_at_trigger := m.value, source := m.source,
              message := alert_message a, notification_sent := false }) := by
      simp [process_alert, hm, heval, hrec]
    have hfilter := filter_by_id _ hf_id (s.alerts.filter (·.enabled)) hndE a haE
    refine ⟨m, hm, ?_, ?_⟩
    · rw [hcreated, hfilter, hfa]
      rfl
    · intro i hi hid
      have hmem : i ∈ ((s.alerts.filter (·.enabled)).filterMap
          (fun a => (process_alert email_ok s.now s.metrics s.instances a).2)).filter
            (fun i => i.alert_id == a.id) := by
        refine List.mem_filter.mpr ⟨?_, by simp [hid]⟩
        rw [← hcreated]
        exact hi
      rw [hfilter, hfa] at hmem
      simp only [Option.toList_some, List.mem_singleton] at hmem
      subst hmem
      exact ⟨(send_notification_preserves _ _ _).2.2.1,
        (send_notification_preserves _ _ _).2.2.2,
        (send_notification_preserves _ _ _).2.1, rfl⟩
  · intro a ha hnf
    by_cases hen : a.enabled
    · have haE : a ∈ s.alerts.filter (·.enabled) := List.mem_filter.mpr ⟨ha, hen⟩
      have hfa : (process_alert email_ok s.now s.metrics s.instances a).2 = none := by
        unfold process_alert
        cases hm : latest_metric s.metrics a with
        | none => rfl
        | some m =>
          simp only
          by_cases hev : evaluate_alert_condition m.value a.comparison_operator
              a.threshold_value = true
          · have hcomp := (evaluate_iff _ _ _).mp hev
            have hrec : recent_trigger s.instances a s.now = true := by
              cases hrt : recent_trigger s.instances a s.now with
              | true => rfl
              | false =>
                exfalso
                apply hnf
                refine ⟨hen, m, hm, hcomp, ?_⟩
                intro hex
                rw [show recent_trigger s.instances a s.now = true from
                  (recent_trigger_iff _ _ _).mpr hex] at hrt
                exact absurd hrt (by simp)
            simp [hev, hrec]
          · simp [hev]
      rw [hcreated, filter_by_id _ hf_id (s.alerts.filter (·.enabled)) hndE a haE, hfa]
      rfl
    · have hnotin : a.id ∉ (s.alerts.filter (·.enabled)).map (·.id) := by
        intro hin
        obtain ⟨b, hbE, hbid⟩ := List.mem_map.mp hin
        have hb : b ∈ s.alerts := List.mem_of_mem_filter hbE
        have hbe : b.enabled = true := (List.mem_filter.mp hbE).2
        have : b = a := List.inj_on_of_nodup_map hnd hb ha hbid
        rw [this] at hbe
        exact hen hbe
      rw [hcreated]
      exact filter_by_id_nil _ hf_id (s.alerts.filter (·.enabled)) a.id hnotin
  · unfold check_alerts
    exact check_alerts_go_table email_ok s.now s.metrics _ s.instances

/-- Demonstration fixture: an enabled threshold alert on the cpu metric. -/
def demoAlert : Alert :=
  { id := 1, name := "cpu high", metric_type := "cpu", threshold_value := 50,
    comparison_operator := ">", severity := "warning", enabled := true,
    notification_enabled := true, email_recipients := ["ops@example.com"],
    check_interval := 60, source := "", last_checked := none, last_triggered := none }

/-- Demonstration fixture: latest cpu metric above the alert threshold. -/
def demoMetric : MetricData :=
  { metric_type := "cpu", value := 90, unit := "%", source := "", timestamp := 999 }

/-- Demonstration fixture: monitor state with one alert, one metric, no
previous instances. -/
def demoState : MonitorState :=
  { alerts := [demoAlert], metrics := [demoMetric], instances := [], now := 1000 }

/-- Concrete instantiation of `claim_C1`: the demo alert fires exactly once. -/
theorem claim_C1_witness :
    ∃ m, latest_metric demoState.metrics demoAlert = some m
      ∧ ((check_alerts (fun _ => true) demoState).2.2.filter
            (fun i => i.alert_id == demoAlert.id)).length = 1
      ∧ ∀ i ∈ (check_alerts (fun _ => true) demoState).2.2,
          i.alert_id = demoAlert.id →
            i.value_at_trigger = m.value ∧ i.source = m.source
              ∧ i.triggered_at = demoState.now
              ∧ i = send_notification true demoAlert
                  { alert_id := demoAlert.id, triggered_at := demoState.now,
                    value_at_trigger := m.value, source := m.source,
                    message := alert_message demoAlert, notification_sent := false } := by
  have h := (claim_C1 (fun _ => true) demoState (by decide)).1 demoAlert
    (by decide)
    ⟨rfl, demoMetric, by decide, Or.inl ⟨rfl, by decide⟩, by simp [demoState]⟩
  exact h

/-! ## `run_command` (`network/utils.py` and `dashboard/utils.py`)

The result dictionaries are modelled as key/value lists in insertion order;
the underlying `subprocess.run` call is an oracle (`RunRes`).  Both versions
hardcode `timeout=30`.
-/

/-- A value stored in a `run_command` result dictionary. -/
inductive PyVal where
  | bool (b : Bool)
  | str (s : String)
  | int (i : Int)
deriving DecidableEq, Repr

/-- First value bound to `k`, as Python dict lookup (keys here are unique). -/
def lookupKey (d : List (String × PyVal)) (k : String) : Option PyVal :=
  (d.find? (fun kv => kv.1 == k)).map (·.2)

/-- Outcome of the underlying `subprocess.run` call: it either completed
(with captured output and an exit code), raised `TimeoutExpired`, or raised
some other exception whose `str()` is `msg`. -/
inductive RunRes where
  | completed (stdout stderr : String) (returncode : Int)
  | timedOut
  | raised (msg : String)
deriving DecidableEq, Repr

/-- `str()` of `subprocess.TimeoutExpired(cmd, timeout)`. -/
def timeoutExpired_str (cmd : String) (timeout : Nat) : String :=
  "Command '" ++ cmd ++ "' timed out after " ++ toString timeout ++ " seconds"

/-- `str()` of `subprocess.CalledProcessError(returncode, cmd)` (the
negative-returncode signal rendering is abbreviated; no claim depends on the
exact characters). -/
def calledProcessError_str (cmd : String) (returncode : Int) : String :=
  if returncode < 0 then
    "Command '" ++ cmd ++ "' died with signal " ++ toString (-returncode) ++ "."
  else
    "Command '" ++ cmd ++ "' returned non-zero exit status "
      ++ toString returncode ++ "."

/-- `network/utils.py::run_command` (`check=True`; a nonzero exit raises
`CalledProcessError`, which the function catches).  `check_output` selects
between the captured and the uncaptured call. -/
def run_command_network (cmd : String) (check_output : Bool) (res : RunRes) :
    List (String × PyVal) :=
  match res with
  | .completed out err rc =>
    if rc = 0 then
      if check_output then
        [("success", .bool true), ("stdout", .str out.trim),
         ("stderr", .str err.trim), ("returncode", .int rc)]
      else
        [("success", .bool true), ("returncode", .int rc)]
    else
      -- `check=True` raised CalledProcessError; with `capture_output` the
      -- exception carries the output, otherwise `e.stdout`/`e.stderr` are None
      [("success", .bool false),
       ("stdout", .str (if check_output then (if out ≠ "" then out.trim else "") else "")),
       ("stderr", .str (if check_output then (if err ≠ "" then err.trim else "") else "")),
       ("returncode", .int rc),
       ("error", .str (calledProcessError_str cmd rc))]
  | .timedOut => [("success", .bool false), ("error", .str "Command timeout")]
  | .raised msg => [("success", .bool false), ("error", .str msg)]

/-- `dashboard/utils.py::run_command` (no `check=True`: a nonzero exit does
not raise; output is not stripped). -/
def run_command_dashboard (cmd : String) (res : RunRes) : List (String × PyVal) :=
  match res with
  | .completed out err rc =>
    [("success", .bool (rc == 0)), ("stdout", .str out),
     ("stderr", .str err), ("returncode", .int rc)]
  | .timedOut => [("success", .bool false), ("error", .str "Command timed out")]
  | .raised msg => [("success", .bool false), ("error", .str msg)]

/-- Claim C5, counterexample: on a timeout the network `run_command` returns
the fixed string `"Command timeout"`, not `str(e)` (which would name the
command and the 30-second limit); and on a plain nonzero exit the dashboard
`run_command` returns `success: False` with no `'error'` key at all. -/
theorem claim_C5_counterexample :
    lookupKey (run_command_network "x" true .timedOut) "error"
        = some (.str "Command timeout")
    ∧ timeoutExpired_str "x" 30 ≠ "Command timeout"
    ∧ lookupKey (run_command_dashboard "x" (.completed "" "" 1)) "success"
        = some (.bool false)
    ∧ lookupKey (run_command_dashboard "x" (.completed "" "" 1)) "error" = none := by
  decide

/-- Claim C5 as amended: both `run_command`s never raise and always return a
dictionary with a `'success'` key; an unexpected exception yields
`success: False` with `error = str(e)`; a timeout yields `success: False`
with a fixed message (`"Command timeout"` in the network version,
`"Command timed out"` in the dashboard version); a nonzero exit yields
`success: False` with `error = str(CalledProcessError)` in the network
version (which uses `check=True`) but no `'error'` key in the dashboard
version; a zero exit yields `success: True`. -/
theorem claim_C5_amended (cmd : String) (co : Bool) (res : RunRes) :
    (lookupKey (run_command_network cmd co res) "success").isSome
    ∧ (lookupKey (run_command_dashboard cmd res) "success").isSome
    ∧ (∀ msg, res = .raised msg →
        run_command_network cmd co res
            = [("success", .bool false), ("error", .str msg)]
        ∧ run_command_dashboard cmd res
            = [("success", .bool false), ("error", .str msg)])
    ∧ (res = .timedOut →
        run_command_network cmd co res
            = [("success", .bool false), ("error", .str "Command timeout")]
        ∧ run_command_dashboard cmd res
            = [("success", .bool false), ("error", .str "Command timed out")])
    ∧ (∀ out err rc, res = .completed out err rc → rc ≠ 0 →
        lookupKey (run_command_network cmd co res) "success" = some (.bool false)
        ∧ lookupKey (run_command_network cmd co res) "error"
            = some (.str (calledProcessError_str cmd rc))
        ∧ lookupKey (run_command_dashboard cmd res) "success" = some (.bool false)
        ∧ lookupKey (run_command_dashboard cmd res) "error" = none)
    ∧ (∀ out err rc, res = .completed out err rc → rc = 0 →
        lookupKey (run_command_network cmd co res) "success" = some (.bool true)
        ∧ lookupKey (run_command_dashboard cmd res) "success" = some (.bool true)) := by
  refine ⟨?_, ?_, ?_, ?_, ?_, ?_⟩
  · cases res with
    | completed out err rc =>
      by_cases h : rc = 0 <;>
        simp [run_command_network, lookupKey, h] <;> cases co <;> simp
    | timedOut => simp [run_command_network, lookupKey]
    | raised msg => simp [run_command_network, lookupKey]
  · cases res <;> simp [run_command_dashboard, lookupKey]
  · intro msg h
    subst h
    exact ⟨rfl, rfl⟩
  · intro h
    subst h
    exact ⟨rfl, rfl⟩
  · intro out err rc h hrc
    subst h
    refine ⟨?_, ?_, ?_, ?_⟩
    · simp [run_command_network, lookupKey, hrc]
    · simp [run_command_network, lookupKey, hrc]
    · simp [run_command_dashboard, lookupKey, hrc]
    · simp [run_command_dashboard, lookupKey]
  · intro out err rc h hrc
    subst h
    constructor
    · cases co <;> simp [run_command_network, lookupKey, hrc]
    · simp [run_command_dashboard, lookupKey, hrc]

/-- Concrete instantiations of `claim_C5_amended` at each failure mode. -/
theorem claim_C5_amended_witness :
    run_command_network "x" true (.raised "boom")
        = [("success", .bool false), ("error", .str "boom")]
    ∧ run_command_network "x" true .timedOut
        = [("success", .bool false), ("error", .str "Command timeout")]
    ∧ lookupKey (run_command_network "x" true (.completed "" "" 1)) "error"
        = some (.str (calledProcessError_str "x" 1))
    ∧ lookupKey (run_command_dashboard "x" (.completed "ok" "" 0)) "success"
        = some (.bool true) :=
  ⟨((claim_C5_amended "x" true (.raised "boom")).2.2.1 "boom" rfl).1,
   ((claim_C5_amended "x" true .timedOut).2.2.2.1 rfl).1,
   ((claim_C5_amended "x" true (.completed "" "" 1)).2.2.2.2.1 "" "" 1 rfl
      (by decide)).2.1,
   ((claim_C5_amended "x" true (.completed "ok" "" 0)).2.2.2.2.2 "ok" "" 0 rfl
      rfl).2⟩

/-! ## Celery tasks (`monitoring/tasks.py`) -/

/-- Whether the body of a task ran to completion or raised. -/
inductive TaskOutcome where
  | ok
  | raises (msg : String)
deriving DecidableEq, Repr

/-- What a task invocation does: return a value, or call
`self.retry(countdown=…, max_retries=…)`. -/
inductive TaskResult where
  | completed (ret : String)
  | retried (countdown : Nat) (max_retries : Nat)
deriving DecidableEq, Repr

/-- `collect_system_metrics` task. -/
def collect_system_metrics_task : TaskOutcome → TaskResult
  | .ok => .completed "Metrics collection completed successfully"
  | .raises _ => .retried 60 3

/-- `collect_logs_task` task. -/
def collect_logs_task : TaskOutcome → TaskResult
  | .ok => .completed "Logs collection completed successfully"
  | .raises _ => .retried 60 3

/-- `cleanup_old_data` task. -/
def cleanup_old_data_task : TaskOutcome → TaskResult
  | .ok => .completed "Data cleanup completed successfully"
  | .raises _ => .retried 300 2

/-- Result of the `check_system_health` task, which on success returns the
three health counts it queried. -/
inductive HealthResult where
  | completed (recent_critical_alerts failed_services recent_metrics_count : Nat)
  | retried (countdown : Nat) (max_retries : Nat)
deriving DecidableEq, Repr

/-- `check_system_health` task; the three counts are the results of its
database queries. -/
def check_system_health_task (recent_critical_alerts failed_services
    recent_metrics_count : Nat) : TaskOutcome → HealthResult
  | .ok => .completed recent_critical_alerts failed_services recent_metrics_count
  | .raises _ => .retried 300 2

/-- Claim C6: whenever a task body raises, `collect_system_metrics` and
`collect_logs_task` retry with countdown 60 and at most 3 retries,
`cleanup_old_data` and `check_system_health` with countdown 300 and at most
2 retries; the countdown and retry limit are the same on every attempt and
for every exception. -/
theorem claim_C6 (o : TaskOutcome) (msg : String) :
    (o = .raises msg →
      collect_system_metrics_task o = .retried 60 3
      ∧ collect_logs_task o = .retried 60 3
      ∧ cleanup_old_data_task o = .retried 300 2
      ∧ ∀ a f m, check_system_health_task a f m o = .retried 300 2)
    ∧ (∀ msg₂,
        collect_system_metrics_task (.raises msg)
            = collect_system_metrics_task (.raises msg₂)
        ∧ collect_logs_task (.raises msg) = collect_logs_task (.raises msg₂)
        ∧ cleanup_old_data_task (.raises msg) = cleanup_old_data_task (.raises msg₂)
        ∧ ∀ a f m, check_system_health_task a f m (.raises msg)
            = check_system_health_task a f m (.raises msg₂)) := by
  constructor
  · intro h
    subst h
    exact ⟨rfl, rfl, rfl, fun _ _ _ => rfl⟩
  · intro msg₂
    exact ⟨rfl, rfl, rfl, fun _ _ _ => rfl⟩

/-- Concrete instantiation of `claim_C6` for a failing attempt. -/
theorem claim_C6_witness :
    collect_system_metrics_task (.raises "db down") = .retried 60 3
    ∧ collect_logs_task (.raises "db down") = .retried 60 3
    ∧ cleanup_old_data_task (.raises "db down") = .retried 300 2
    ∧ check_system_health_task 0 0 0 (.raises "db down") = .retried 300 2 := by
  have h := (claim_C6 (.raises "db down") "db down").1 rfl
  exact ⟨h.1, h.2.1, h.2.2.1, h.2.2.2 0 0 0⟩

/-! ## nftables configuration workflow (`network/nftables_config.py`)

Filesystem state is the content of the live config file and of its backup;
every subprocess outcome is an oracle field of `NftEnv`.  `cp` and `nft`
failures with `check=True` raise `CalledProcessError`, which the code
catches; an `OSError` from the backup `cp` call is the one exception the
workflow itself does not catch (modelled by `backup_os_error`), so it is the
representative of what the signal handlers' outer `try/except` must absorb.
-/

/-- Contents of `/etc/nftables/nftables.conf` and its backup (`none` when
the file does not exist). -/
structure NftFS where
  live : Option String
  backup : Option String
deriving DecidableEq, Repr

/-- Oracle for the subprocess calls and exceptions of the workflow. -/
structure NftEnv where
  backup_os_error : Option String
  backup_cp_fails : Bool
  tmp_write_raises : Bool
  validate_ok : String → Bool
  validate_stderr : String
  cp_to_live_fails : Bool
  apply_ok : String → Bool
  apply_stderr : String
  restart_ok : Bool
  rollback_cp_fails : Bool
  rollback_apply_fails : Bool
  generate_raises : Bool

/-- `NFTablesConfigManager.backup_current_config`. -/
def backup_current_config (env : NftEnv) (fs : NftFS) : Bool × NftFS :=
  match fs.live with
  | some content =>
    if env.backup_cp_fails then (false, fs)
    else (true, { fs with backup := some content })
  | none => (false, fs)

/-- `NFTablesConfigManager.write_config`: write a temp file, validate it with
`nft -c -f`, and only then copy it over the live config. -/
def write_config (env : NftEnv) (fs : NftFS) (content : String) :
    (Bool × String) × NftFS :=
  if env.tmp_write_raises then
    ((false, "Unexpected error: temporary file write failed"), fs)
  else if env.validate_ok content = false then
    ((false, "Configuration validation failed: " ++ env.validate_stderr), fs)
  else if env.cp_to_live_fails then
    ((false, "Failed to write configuration: cp failed"), fs)
  else
    ((true, "Configuration written successfully"), { fs with live := some content })

/-- `NFTablesConfigManager.apply_config`: `nft -f` on the live file, then a
`systemctl restart nftables` whose failure is only logged. -/
def apply_config (env : NftEnv) (fs : NftFS) : (Bool × String) × NftFS :=
  let ok := match fs.live with
    | some c => env.apply_ok c
    | none => false
  if ok = false then ((false, "Failed to apply configuration: " ++ env.apply_stderr), fs)
  else ((true, "Configuration applied successfully"), fs)

/-- `NFTablesConfigManager.rollback_config`. -/
def rollback_config (env : NftEnv) (fs : NftFS) : (Bool × String) × NftFS :=
  match fs.backup with
  | some b =>
    if env.rollback_cp_fails then (((false, "Rollback failed: cp failed")), fs)
    else
      let fs1 := { fs with live := some b }
      if env.rollback_apply_fails then ((false, "Rollback failed: nft failed"), fs1)
      else ((true, "Configuration rolled back successfully"), fs1)
  | none => ((false, "No backup configuration available"), fs)

/-- `NFTablesConfigManager.apply_network_changes`: backup, regenerate from
the database, validate and write, apply, rollback on apply failure.
`Except.error` is an exception escaping the workflow (an `OSError` from the
backup `cp`, which only `CalledProcessError` is caught for). -/
def apply_network_changes (env : NftEnv) (db : NftDb) (fs : NftFS) :
    Except String ((Bool × String) × NftFS) :=
  match env.backup_os_error with
  | some e => .error e
  | none =>
    let r := backup_current_config env fs
    if r.1 = false then .ok ((false, "Failed to backup current configuration"), r.2)
    else if env.generate_raises then
      .ok ((false, "Configuration generation failed: database error"), r.2)
    else
      let w := write_config env r.2 (generate_config db)
      if w.1.1 = false then .ok ((false, w.1.2), w.2)
      else
        let a := apply_config env w.2
        if a.1.1 = false then
          let rb := rollback_config env a.2
          .ok ((false, a.1.2), rb.2)
        else .ok ((true, "Network configuration updated successfully"), a.2)

/-- `nftables_mgr/models.py::apply_network_config_on_save`: the `post_save`
receiver; its `try/except Exception` absorbs every failure. -/
def apply_network_config_on_save (env : NftEnv) (db : NftDb) (fs : NftFS) : NftFS :=
  match apply_network_changes env db fs with
  | .ok r => r.2
  | .error _ => fs

/-- `nftables_mgr/models.py::apply_network_config_on_delete`: the
`post_delete` receiver (same body as the save receiver). -/
def apply_network_config_on_delete (env : NftEnv) (db : NftDb) (fs : NftFS) : NftFS :=
  match apply_network_changes env db fs with
  | .ok r => r.2
  | .error _ => fs

/-- The receivers registered on `post_save` for `NFTableRule` and
`PortForward` (both `@receiver` decorators name the same function). -/
def post_save_receivers : List (NftEnv → NftDb → NftFS → NftFS) :=
  [apply_network_config_on_save]

/-- The receivers registered on `post_delete` for `NFTableRule` and
`PortForward`. -/
def post_delete_receivers : List (NftEnv → NftDb → NftFS → NftFS) :=
  [apply_network_config_on_delete]

/-- Django `Model.save()` on an `NFTableRule`: write the row, then run every
registered `post_save` receiver on the post-write database state.  `write`
is the row-level effect of this save on the table. -/
def save_NFTableRule (env : NftEnv) (write : List NFTableRule → List NFTableRule)
    (db : NftDb) (fs : NftFS) : NftDb × NftFS :=
  let db' : NftDb := { db with nftable_rules := write db.nftable_rules }
  (db', post_save_receivers.foldl (fun fs h => h env db' fs) fs)

/-- Django `Model.delete()` on an `NFTableRule`. -/
def delete_NFTableRule (env : NftEnv) (remove : List NFTableRule → List NFTableRule)
    (db : NftDb) (fs : NftFS) : NftDb × NftFS :=
  let db' : NftDb := { db with nftable_rules := remove db.nftable_rules }
  (db', post_delete_receivers.foldl (fun fs h => h env db' fs) fs)

/-- Django `Model.save()` on a `PortForward`. -/
def save_PortForward (env : NftEnv) (write : List PortForward → List PortForward)
    (db : NftDb) (fs : NftFS) : NftDb × NftFS :=
  let db' : NftDb := { db with port_forwards := write db.port_forwards }
  (db', post_save_receivers.foldl (fun fs h => h env db' fs) fs)

/-- Django `Model.delete()` on a `PortForward`. -/
def delete_PortForward (env : NftEnv) (remove : List PortForward → List PortForward)
    (db : NftDb) (fs : NftFS) : NftDb × NftFS :=
  let db' : NftDb := { db with port_forwards := remove db.port_forwards }
  (db', post_delete_receivers.foldl (fun fs h => h env db' fs) fs)

/-- Claim C8: `write_config` never replaces the live configuration file with
a configuration that failed validation: when `nft -c` fails it returns
`(False, message)` and leaves the live file unchanged, and the live file
changes only when validation succeeded — and then only to the validated
content. -/
theorem claim_C8 (env : NftEnv) (fs : NftFS) (content : String) :
    (env.validate_ok content = false →
      (write_config env fs content).1.1 = false
      ∧ (write_config env fs content).2.live = fs.live)
    ∧ ((write_config env fs content).2.live ≠ fs.live →
        env.validate_ok content = true
        ∧ (write_config env fs content).2.live = some content
        ∧ (write_config env fs content).1.1 = true) := by
  constructor
  · intro hv
    unfold write_config
    by_cases h1 : env.tmp_write_raises
    · simp [h1]
    · simp [h1, hv]
  · intro hch
    unfold write_config at hch ⊢
    by_cases h1 : env.tmp_write_raises
    · simp [h1] at hch
    · by_cases h2 : env.validate_ok content = false
      · simp [h1, h2] at hch
      · have hv : env.validate_ok content = true := by
          revert h2
          cases env.validate_ok content <;> simp
        by_cases h3 : env.cp_to_live_fails
        · simp [h1, h2, h3] at hch
        · simp [h1, h2, h3, hv]

/-- Environment in which every subprocess call succeeds. -/
def demoEnvOk : NftEnv :=
  { backup_os_error := none, backup_cp_fails := false, tmp_write_raises := false,
    validate_ok := fun _ => true, validate_stderr := "",
    cp_to_live_fails := false, apply_ok := fun _ => true, apply_stderr := "",
    restart_ok := true, rollback_cp_fails := false, rollback_apply_fails := false,
    generate_raises := false }

/-- Environment in which `nft -c` rejects every configuration. -/
def demoEnvReject : NftEnv :=
  { demoEnvOk with validate_ok := fun _ => false, validate_stderr := "syntax error" }

/-- Environment in which the backup `cp` raises an `OSError`, the one
exception the workflow itself does not catch. -/
def demoEnvOsError : NftEnv :=
  { demoEnvOk with backup_os_error := some "cp: not found" }

/-- Concrete instantiation of `claim_C8`: a rejected configuration leaves
the live file as it was. -/
theorem claim_C8_witness :
    (write_config demoEnvReject ⟨some "old", none⟩ "new config").1.1 = false
    ∧ (write_config demoEnvReject ⟨some "old", none⟩ "new config").2.live
        = some "old" := by
  have h := (claim_C8 demoEnvReject ⟨some "old", none⟩ "new config").1 rfl
  exact ⟨h.1, h.2⟩

/-- Claim C4: exactly one receiver is registered on `post_save` and one on
`post_delete` for `NFTableRule` and `PortForward`, so every save and every
delete of these models runs `apply_network_changes` (the full
backup–regenerate–validate–write–apply–rollback workflow) exactly once on
the post-write database state; and the receiver absorbs both workflow
results and escaped exceptions, so no failure propagates out of the save or
delete. -/
theorem claim_C4 (env : NftEnv) (db : NftDb) (fs : NftFS)
    (writeR removeR : List NFTableRule → List NFTableRule)
    (writeP removeP : List PortForward → List PortForward) :
    post_save_receivers.length = 1
    ∧ post_delete_receivers.length = 1
    ∧ (save_NFTableRule env writeR db fs).2
        = apply_network_config_on_save env
            { db with nftable_rules := writeR db.nftable_rules } fs
    ∧ (delete_NFTableRule env removeR db fs).2
        = apply_network_config_on_delete env
            { db with nftable_rules := removeR db.nftable_rules } fs
    ∧ (save_PortForward env writeP db fs).2
        = apply_network_config_on_save env
            { db with port_forwards := writeP db.port_forwards } fs
    ∧ (delete_PortForward env removeP db fs).2
        = apply_network_config_on_delete env
            { db with port_forwards := removeP db.port_forwards } fs
    ∧ (∀ db₀ : NftDb,
        (∀ r, apply_network_changes env db₀ fs = .ok r →
          apply_network_config_on_save env db₀ fs = r.2
          ∧ apply_network_config_on_delete env db₀ fs = r.2)
        ∧ (∀ e, apply_network_changes env db₀ fs = .error e →
          apply_network_config_on_save env db₀ fs = fs
          ∧ apply_network_config_on_delete env db₀ fs = fs)) := by
  refine ⟨rfl, rfl, rfl, rfl, rfl, rfl, ?_⟩
  intro db₀
  constructor
  · intro r h
    constructor
    · unfold apply_network_config_on_save
      rw [h]
    · unfold apply_network_config_on_delete
      rw [h]
  · intro e h
    constructor
    · unfold apply_network_config_on_save
      rw [h]
    · unfold apply_network_config_on_delete
      rw [h]

/-- Concrete instantiation of `claim_C4`: an `OSError` escaping the workflow
is absorbed by the receiver, and the save returns with the filesystem
untouched. -/
theorem claim_C4_witness :
    apply_network_config_on_save demoEnvOsError ⟨[], []⟩ ⟨some "old", none⟩
        = ⟨some "old", none⟩
    ∧ (save_NFTableRule demoEnvOsError id ⟨[], []⟩ ⟨some "old", none⟩).2
        = ⟨some "old", none⟩ := by
  have h := claim_C4 demoEnvOsError ⟨[], []⟩ ⟨some "old", none⟩ id id id id
  have herr := ((h.2.2.2.2.2.2 ⟨[], []⟩).2 "cp: not found" rfl).1
  exact ⟨herr, by rw [h.2.2.1]; exact herr⟩

/-! ## `MonitoringSettings` singleton (`monitoring/models.py`) -/

/-- Row of the `MonitoringSettings` table (representative fields). -/
structure MonitoringSettingsRow where
  pk : Nat
  metric_retention_days : Int
  log_retention_days : Int
  collection_interval : Int
deriving DecidableEq, Repr

/-- An in-memory `MonitoringSettings` instance about to be saved (`pk` is
`None` before the first save). -/
structure MSInstance where
  pk : Option Nat
  metric_retention_days : Int
  log_retention_days : Int
  collection_interval : Int
deriving DecidableEq, Repr

/-- The model's field defaults (`30`, `7`, `30`). -/
def defaultSettings (pk : Nat) : MonitoringSettingsRow :=
  { pk := pk, metric_retention_days := 30, log_retention_days := 7,
    collection_interval := 30 }

/-- Python truthiness of `self.pk` (`None` and `0` are falsy). -/
def pk_truthy : Option Nat → Bool
  | none => false
  | some n => n != 0

/-- `objects.first()` on an unordered queryset (Django orders by primary
key): the row with the smallest pk. -/
def ms_first : List MonitoringSettingsRow → Option MonitoringSettingsRow
  | [] => none
  | r :: rs => some (rs.foldl (fun acc x => if x.pk < acc.pk then x else acc) r)

/-- Django `Model.save()` row semantics: update the row with this pk if one
exists, otherwise insert (with the given pk, or a fresh one when unset). -/
def django_save_row (inst : MSInstance) (t : List MonitoringSettingsRow)
    (fresh : Nat) : List MonitoringSettingsRow :=
  match inst.pk with
  | none => t ++ [⟨fresh, inst.metric_retention_days, inst.log_retention_days,
      inst.collection_interval⟩]
  | some p =>
    if t.any (fun r => r.pk == p) then
      t.map (fun r =>
        if r.pk == p then
          ⟨p, inst.metric_retention_days, inst.log_retention_days,
            inst.collection_interval⟩
        else r)
    else t ++ [⟨p, inst.metric_retention_days, inst.log_retention_days,
      inst.collection_interval⟩]

/-- `MonitoringSettings.save`: when the instance has no (truthy) pk and a
row already exists, reuse the first row's pk before the ordinary save. -/
def monitoring_settings_save (inst : MSInstance) (t : List MonitoringSettingsRow)
    (fresh : Nat) : List MonitoringSettingsRow :=
  let inst' :=
    if pk_truthy inst.pk = false ∧ t ≠ [] then
      { inst with pk := (ms_first t).map (·.pk) }
    else inst
  django_save_row inst' t fresh

/-- `MonitoringSettings.get_settings`: `get_or_create(defaults={})` — return
the single row, create a defaults row when the table is empty, raise
`MultipleObjectsReturned` when several rows exist. -/
def monitoring_settings_get (t : List MonitoringSettingsRow) (fresh : Nat) :
    Except String (MonitoringSettingsRow × List MonitoringSettingsRow) :=
  match t with
  | [] => .ok (defaultSettings fresh, [defaultSettings fresh])
  | [r] => .ok (r, t)
  | _ => .error "MultipleObjectsReturned"

/-- Claim C9, counterexample: saving an instance that carries an explicit
primary key not present in a non-empty table inserts a second row, so
`MonitoringSettings.save` does not preserve the at-most-one-row invariant
for every save. -/
theorem claim_C9_counterexample :
    ([(⟨1, 30, 7, 30⟩ : MonitoringSettingsRow)] : List MonitoringSettingsRow).length ≤ 1
    ∧ (monitoring_settings_save ⟨some 2, 10, 5, 60⟩ [⟨1, 30, 7, 30⟩] 7).length = 2 := by
  decide

/-- Claim C9 as amended: `save` preserves the at-most-one-row invariant for
every save whose instance has no (truthy) pk or whose pk is that of an
existing row — in particular a pk-less save into a non-empty table updates
the existing row in place, reusing its pk; and `get_settings` returns the
single existing row unchanged, creating a defaults row only when the table
is empty. -/
theorem claim_C9_amended (inst : MSInstance) (t : List MonitoringSettingsRow)
    (fresh : Nat) :
    (t.length ≤ 1 →
      (pk_truthy inst.pk = false ∨ (∃ r ∈ t, inst.pk = some r.pk)) →
      (monitoring_settings_save inst t fresh).length ≤ 1)
    ∧ (∀ r, t = [r] → pk_truthy inst.pk = false →
        monitoring_settings_save inst t fresh
          = [⟨r.pk, inst.metric_retention_days, inst.log_retention_days,
              inst.collection_interval⟩])
    ∧ (t = [] →
        monitoring_settings_get t fresh
          = .ok (defaultSettings fresh, [defaultSettings fresh]))
    ∧ (∀ r, t = [r] → monitoring_settings_get t fresh = .ok (r, t)) := by
  refine ⟨?_, ?_, ?_, ?_⟩
  · intro hlen hpk
    match t with
    | [] =>
      cases hp : inst.pk <;>
        simp [monitoring_settings_save, django_save_row, hp]
    | [r] =>
      rcases hpk with hfalse | ⟨r', hr', hpkeq⟩
      · simp [monitoring_settings_save, django_save_row, ms_first, hfalse]
      · have hr'r : r' = r := by simpa using hr'
        subst hr'r
        by_cases hfalsy : pk_truthy inst.pk = false
        · simp [monitoring_settings_save, django_save_row, ms_first, hfalsy]
        · have hft : pk_truthy (some r'.pk) = true := by
            rw [← hpkeq]
            revert hfalsy
            cases pk_truthy inst.pk <;> simp
          simp [monitoring_settings_save, django_save_row, hpkeq, hft]
    | r₁ :: r₂ :: rest => simp at hlen
  · intro r ht hfalse
    subst ht
    simp [monitoring_settings_save, django_save_row, ms_first, hfalse]
  · intro ht
    subst ht
    rfl
  · intro r ht
    subst ht
    rfl

/-- Concrete instantiation of `claim_C9_amended`: a pk-less save into a
table holding one row updates that row in place. -/
theorem claim_C9_amended_witness :
    monitoring_settings_save ⟨none, 10, 5, 60⟩ [⟨1, 30, 7, 30⟩] 7
        = [⟨1, 10, 5, 60⟩]
    ∧ monitoring_settings_get ([] : List MonitoringSettingsRow) 7
        = .ok (defaultSettings 7, [defaultSettings 7]) := by
  have h := claim_C9_amended ⟨none, 10, 5, 60⟩ [⟨1, 30, 7, 30⟩] 7
  have h2 := claim_C9_amended ⟨none, 10, 5, 60⟩ [] 7
  exact ⟨h.2.1 ⟨1, 30, 7, 30⟩ rfl rfl, h2.2.2.1 rfl⟩

/-! ## Connection metrics (`SystemMonitor.collect_connection_metrics`) -/

/-- An address as returned by psutil (`laddr` / `raddr`). -/
structure PyAddr where
  ip : String
  port : Nat
deriving DecidableEq, Repr

/-- A connection as returned by `psutil.net_connections()`. -/
structure PyConnection where
  type_name : String
  laddr : Option PyAddr
  raddr : Option PyAddr
  status : String
  pid : Option Nat
deriving DecidableEq, Repr

/-- Row of the `ConnectionMonitor` table (`monitoring/models.py`). -/
structure ConnRow where
  protocol : String
  local_address : String
  local_port : Nat
  remote_address : String
  remote_port : Option Nat
  state : String
  process_name : String
  process_id : Option Nat
deriving DecidableEq, Repr

/-- Oracle for `collect_connection_metrics`: the psutil snapshot, whether
the delete and the two summary `MetricData` creations succeed, whether each
per-connection row creation succeeds, and process-name lookup. -/
structure ConnEnv where
  connections : Option (List PyConnection)
  delete_ok : Bool
  metric_create_ok : Bool
  create_ok : PyConnection → Bool
  proc_name : Nat → Option String

/-- The `ConnectionMonitor` row built for one connection. -/
def mkConnRow (env : ConnEnv) (c : PyConnection) : ConnRow :=
  { protocol := pyLower c.type_name,
    local_address := match c.laddr with | some a => a.ip | none => "",
    local_port := match c.laddr with | some a => a.port | none => 0,
    remote_address := match c.raddr with | some a => a.ip | none => "",
    remote_port := match c.raddr with | some a => some a.port | none => none,
    state := c.status,
    process_name :=
      match c.pid with
      | some p =>
        if p ≠ 0 then (match env.proc_name p with | some n => n | none => "")
        else ""
      | none => "",
    process_id := c.pid }

/-- `SystemMonitor.collect_connection_metrics`: two summary `MetricData`
rows, delete the whole `ConnectionMonitor` table, then insert one row per
connection for the first 100 connections, skipping any whose creation
raises.  The `Bool` is true iff the body ran to its end (no outer-except
abort). -/
def collect_connection_metrics (env : ConnEnv) (connTable : List ConnRow)
    (metrics : List MetricData) (now : Int) :
    List ConnRow × List MetricData × Bool :=
  match env.connections with
  | none => (connTable, metrics, false)
  | some conns =>
    if env.metric_create_ok = false then (connTable, metrics, false)
    else
      let established :=
        (conns.filter (fun c => c.status == "ESTABLISHED")).length
      let metrics' :=
        (⟨"connections_established", (established : ℚ), "", "system", now⟩ : MetricData)
          :: (⟨"connections_active", (conns.length : ℚ), "", "system", now⟩ : MetricData)
          :: metrics
      if env.delete_ok = false then (connTable, metrics', false)
      else
        let inserted := (conns.take 100).filterMap
          (fun c => if env.create_ok c then some (mkConnRow env c) else none)
        (inserted, metrics', true)

/-- Claim C10: after every completed run of `collect_connection_metrics`
(one that was not aborted by an exception before or at the delete), the
`ConnectionMonitor` table holds at most 100 rows — at most one per observed
connection, only for the first 100 connections — and its content does not
depend on what the table held before (everything was deleted first). -/
theorem claim_C10 (env : ConnEnv) (tbl : List ConnRow)
    (metrics : List MetricData) (now : Int)
    (hc : (collect_connection_metrics env tbl metrics now).2.2 = true) :
    (collect_connection_metrics env tbl metrics now).1.length ≤ 100
    ∧ (collect_connection_metrics env tbl metrics now).1.length
        ≤ (match env.connections with | some cs => cs.length | none => 0)
    ∧ ∀ tbl₂ : List ConnRow,
        (collect_connection_metrics env tbl₂ metrics now).1
          = (collect_connection_metrics env tbl metrics now).1 := by
  cases hcs : env.connections with
  | none => simp [collect_connection_metrics, hcs] at hc
  | some conns =>
    by_cases hmc : env.metric_create_ok = false
    · simp [collect_connection_metrics, hcs, hmc] at hc
    · have hmc' : env.metric_create_ok = true := by
        revert hmc
        cases env.metric_create_ok <;> simp
      by_cases hdel : env.delete_ok = false
      · simp [collect_connection_metrics, hcs, hmc', hdel] at hc
      · have hdel' : env.delete_ok = true := by
          revert hdel
          cases env.delete_ok <;> simp
        refine ⟨?_, ?_, ?_⟩
        · simp only [collect_connection_metrics, hcs, hmc', hdel']
          simp only [Bool.true_eq_false, if_false]
          apply le_trans (List.length_filterMap_le _ _)
          rw [List.length_take]
          exact min_le_left _ _
        · simp only [collect_connection_metrics, hcs, hmc', hdel']
          simp only [Bool.true_eq_false, if_false]
          apply le_trans (List.length_filterMap_le _ _)
          rw [List.length_take]
          exact min_le_right _ _
        · intro tbl₂
          simp only [collect_connection_metrics, hcs, hmc', hdel']
          simp only [Bool.true_eq_false, if_false]

/-- Fixture environment for the connection-metrics witness: two observed
connections, everything succeeding. -/
def demoConnEnv : ConnEnv :=
  { connections := some
      [⟨"SOCK_STREAM", some ⟨"127.0.0.1", 22⟩, some ⟨"10.0.0.5", 50000⟩,
        "ESTABLISHED", some 4⟩,
       ⟨"SOCK_DGRAM", some ⟨"0.0.0.0", 53⟩, none, "NONE", none⟩],
    delete_ok := true, metric_create_ok := true,
    create_ok := fun _ => true, proc_name := fun _ => some "sshd" }

/-- Concrete instantiation of `claim_C10` on a completed run. -/
theorem claim_C10_witness :
    (collect_connection_metrics demoConnEnv
        [⟨"tcp", "stale", 1, "", none, "OLD", "", none⟩] [] 1000).1.length ≤ 100
    ∧ (collect_connection_metrics demoConnEnv
        [⟨"tcp", "stale", 1, "", none, "OLD", "", none⟩] [] 1000).1
      = (collect_connection_metrics demoConnEnv [] [] 1000).1 := by
  have h := claim_C10 demoConnEnv
    [⟨"tcp", "stale", 1, "", none, "OLD", "", none⟩] [] 1000 (by decide)
  exact ⟨h.1, (h.2.2 []).symm⟩

/-! ## `collect_metrics` management command (`Command.handle`) -/

/-- A database-affecting monitoring operation. -/
inductive MonOp where
  | collectAllMetrics
  | collectSystemLogs
  | cleanupOldData
deriving DecidableEq, Repr

/-- An observable effect of the management command. -/
inductive CmdEff where
  | dbOp (op : MonOp)
  | stdoutWrite (s : String)
deriving DecidableEq, Repr

/-- `Command.handle` of `collect_metrics` on a successful run: the sequence
of effects it performs, given the `--verbose` flag (`now₁`/`now₂` are the
rendered timestamps of the verbose banner lines). -/
def command_handle_trace (verbose : Bool) (now₁ now₂ : String) : List CmdEff :=
  (if verbose then [CmdEff.stdoutWrite ("Starting metric collection at " ++ now₁)]
   else [])
  ++ [CmdEff.stdoutWrite "Collecting system metrics...",
      CmdEff.dbOp .collectAllMetrics,
      CmdEff.stdoutWrite "Collecting system logs...",
      CmdEff.dbOp .collectSystemLogs,
      CmdEff.stdoutWrite "Cleaning up old data...",
      CmdEff.dbOp .cleanupOldData]
  ++ (if verbose then [CmdEff.stdoutWrite ("Metric collection completed at " ++ now₂)]
      else [])

/-- Database operations performed by the `collect_system_metrics` task
(`monitoring/tasks.py`). -/
def collect_system_metrics_ops : List MonOp := [.collectAllMetrics]

/-- Database operations performed by the `collect_logs_task` task. -/
def collect_logs_task_ops : List MonOp := [.collectSystemLogs]

/-- Database operations performed by the `cleanup_old_data` task. -/
def cleanup_old_data_ops : List MonOp := [.cleanupOldData]

/-- The database operations in a command effect trace. -/
def dbOps (tr : List CmdEff) : List MonOp :=
  tr.filterMap (fun e => match e with | .dbOp o => some o | _ => none)

/-- Claim C7: one run of the `collect_metrics` command's `handle` performs
exactly the three database operations of the `collect_system_metrics`,
`collect_logs_task` and `cleanup_old_data` tasks, in that order, and no
other state-changing operation (its remaining effects are stdout writes). -/
theorem claim_C7 (verbose : Bool) (now₁ now₂ : String) :
    dbOps (command_handle_trace verbose now₁ now₂)
      = collect_system_metrics_ops ++ collect_logs_task_ops ++ cleanup_old_data_ops := by
  cases verbose <;> rfl

end RouterManager

